import Mathlib

/-!
Verification of the dog-head-orientation labeling engine.

The definitions below are a shallow embedding of the three Python modules:

* `manual_labeling_ui.py` — the canonical ray/border-intersection classifier
  (`classify_orientation_by_ray_intersection`), the tilt-angle calculator
  (`calculate_head_tilt_angle`), and the per-segment aggregation loop of
  `load_and_process_excel`;
* `head_orientation_ui.py` / `label_head_orientation.py` — the ratio-threshold
  classifier and its derived per-frame metrics.

Python floats are modelled by exact rationals, with an explicit `nan`
constructor (`FloatVal`) where the code can meet NaN: IEEE comparisons with
NaN are false, and `pandas.Series.mean` (default `skipna=True`) averages only
the non-NaN entries.  Values the classifier receives before its
`float(...)` coercion are modelled by `CoordIn`, whose `bad` constructor
stands for a value on which `float()` raises.  `math.atan` is modelled by
`Real.arctan`, hence the tilt calculator lives over `ℝ`.  Python's `round(x, 1)`
(round-half-to-even) is modelled by `rheQ` / `rheR`, and `int(x)` truncation
toward zero by `pytrunc`.
-/

namespace DogHead

/-- A Python float that may be NaN (`pd.to_numeric(..., errors="coerce")`
turns non-numeric cells into NaN). -/
inductive FloatVal where
  | nan : FloatVal
  | num : ℚ → FloatVal
deriving DecidableEq

/-- IEEE comparison `v < c` against a numeric constant: NaN compares false. -/
def FloatVal.ltNum : FloatVal → ℚ → Bool
  | .nan, _ => false
  | .num q, c => decide (q < c)

/-- Is this float a (non-NaN) number? -/
def FloatVal.isNum : FloatVal → Bool
  | .nan => false
  | .num _ => true

/-- A raw value handed to `classify_orientation_by_ray_intersection` before its
`float(...)` coercion: a numeric value, NaN, or a value on which `float()`
raises `ValueError`/`TypeError` (`bad`). -/
inductive CoordIn where
  | num : ℚ → CoordIn
  | nan : CoordIn
  | bad : CoordIn
deriving DecidableEq

/-- The lower-case orientation strings returned by
`classify_orientation_by_ray_intersection`. -/
inductive Orient where
  | left
  | right
  | straight
  | elsewhere
  | undefined
  | poor
deriving DecidableEq

/-- Python's `round` to an integer: round-half-to-even (banker's rounding),
over exact rationals. -/
def rheQ (q : ℚ) : ℤ :=
  if q - ⌊q⌋ < 1/2 then ⌊q⌋
  else if 1/2 < q - ⌊q⌋ then ⌊q⌋ + 1
  else if Even ⌊q⌋ then ⌊q⌋ else ⌊q⌋ + 1

/-- Python's `round(x, 1)` over exact rationals. -/
def pyround1Q (q : ℚ) : ℚ := (rheQ (10 * q) : ℚ) / 10

/-- Python's `int(x)`: truncation toward zero. -/
def pytrunc (q : ℚ) : ℤ := if 0 ≤ q then ⌊q⌋ else ⌈q⌉

/-- Reference image width (`W = 920` in the classifier). -/
def imgW : ℚ := 920

/-- Reference image height (`H = 518` in the classifier). -/
def imgH : ℚ := 518

/-- Candidate intersection of the ray `bottom + t*(dx, dy)` with the vertical
border line `x = xline`, kept when `t >= 0` and `0 <= y <= H - 1`
(only called when `dx ≠ 0`). -/
def vertHit (bottom_x bottom_y dx dy xline : ℚ) : List (ℚ × ℚ × ℚ) :=
  let t := (xline - bottom_x) / dx
  if 0 ≤ t then
    let y := bottom_y + t * dy
    if 0 ≤ y ∧ y ≤ imgH - 1 then [(t, xline, y)] else []
  else []

/-- Candidate intersection of the ray with the horizontal border line
`y = yline`, kept when `t >= 0` and `0 <= x <= W - 1`
(only called when `dy ≠ 0`). -/
def horizHit (bottom_x bottom_y dx dy yline : ℚ) : List (ℚ × ℚ × ℚ) :=
  let t := (yline - bottom_y) / dy
  if 0 ≤ t then
    let x := bottom_x + t * dx
    if 0 ≤ x ∧ x ≤ imgW - 1 then [(t, x, yline)] else []
  else []

/-- The list of valid forward border intersections `(t, x, y)` built by the
classifier, in the code's order: left border, right border (when `dx ≠ 0`),
then top border, bottom border (when `dy ≠ 0`). -/
def rayCandidates (bottom_x bottom_y tip_x tip_y : ℚ) : List (ℚ × ℚ × ℚ) :=
  let dx := tip_x - bottom_x
  let dy := tip_y - bottom_y
  (if dx ≠ 0 then
      vertHit bottom_x bottom_y dx dy 0 ++ vertHit bottom_x bottom_y dx dy (imgW - 1)
    else [])
  ++ (if dy ≠ 0 then
      horizHit bottom_x bottom_y dx dy 0 ++ horizHit bottom_x bottom_y dx dy (imgH - 1)
    else [])

/-- `intersections.sort(key=t)[0]`: the first element of minimal `t`
(Python's sort is stable, so ties keep the earlier candidate). -/
def selectMin : List (ℚ × ℚ × ℚ) → Option (ℚ × ℚ × ℚ)
  | [] => none
  | e :: rest =>
    match selectMin rest with
    | none => some e
    | some m => if m.1 < e.1 then some m else some e

/-- The zone classification of the final border x-coordinate, exactly the
code's `if`-chain (LEFT, then RIGHT, then STRAIGHT, else ELSEWHERE). -/
def zoneOf (x : ℚ) : Orient :=
  if 125 < x ∧ x < 325 then .left
  else if 600 < x ∧ x < 800 then .right
  else if 325 < x ∧ x < 600 then .straight
  else .elsewhere

/-- The geometric part of the ray classifier: pick the smallest-`t`
intersection, round its x-coordinate to one decimal, and classify the zone.
Returns `(x_border, y_border, orientation)`. -/
def rayGeom (bottom_x bottom_y tip_x tip_y : ℚ) : Option ℚ × Option ℚ × Orient :=
  match selectMin (rayCandidates bottom_x bottom_y tip_x tip_y) with
  | none => (none, none, .undefined)
  | some (_, xb, yb) =>
    let xr := pyround1Q xb
    (some xr, some yb, zoneOf xr)

/-- `float(v)` in the classifier's `try` block: `none` models the raised
exception caught by the surrounding `except`. -/
def coerceCoord : CoordIn → Option FloatVal
  | .num q => some (.num q)
  | .nan => some .nan
  | .bad => none

/-- Does the likelihood check `lik is not None and lik < 0.6` fire?
(NaN < 0.6 is false.) -/
def likBelow (lik : Option FloatVal) : Bool :=
  match lik with
  | none => false
  | some v => v.ltNum (3/5)

/-- `classify_orientation_by_ray_intersection` (manual_labeling_ui.py,
lines 487-587): coerce the four coordinates (failure → `undefined`), reject
NaN coordinates (→ `undefined`), apply the likelihood priority checks
(→ `poor_likelihood`), then run the border-intersection geometry. -/
def classify_orientation_by_ray_intersection
    (bottom_x bottom_y tip_x tip_y : CoordIn)
    (bottom_likelihood tip_likelihood : Option FloatVal) :
    Option ℚ × Option ℚ × Orient :=
  match coerceCoord bottom_x, coerceCoord bottom_y, coerceCoord tip_x, coerceCoord tip_y with
  | some (.num bx), some (.num bv), some (.num tx), some (.num tv) =>
    if likBelow bottom_likelihood then (none, none, .poor)
    else if likBelow tip_likelihood then (none, none, .poor)
    else rayGeom bx bv tx tv
  | some _, some _, some _, some _ => (none, none, .undefined)
  | _, _, _, _ => (none, none, .undefined)

/-- The per-segment label stored by `load_and_process_excel` (lines 443-450):
`undefined` and `poor_likelihood` are both replaced by `"poor likelihood"`,
then everything is upper-cased. -/
def segmentLabel : Orient → String
  | .left => "LEFT"
  | .right => "RIGHT"
  | .straight => "STRAIGHT"
  | .elsewhere => "ELSEWHERE"
  | .undefined => "POOR LIKELIHOOD"
  | .poor => "POOR LIKELIHOOD"

/-- The numeric (non-NaN) entries of a column slice. -/
def numVals : List FloatVal → List ℚ
  | [] => []
  | .nan :: rest => numVals rest
  | .num q :: rest => q :: numVals rest

/-- `pandas.Series.mean()` with its default `skipna=True`, as used on every
per-segment column slice in `load_and_process_excel`: the arithmetic mean of
the non-NaN entries, or NaN when no non-NaN entry exists. -/
def seriesMean (l : List FloatVal) : FloatVal :=
  match numVals l with
  | [] => .nan
  | xs => .num (xs.sum / xs.length)

/-- One row of the coerced DataFrame: twelve float fields, each possibly NaN
after `pd.to_numeric(..., errors="coerce")`. -/
structure Frame where
  nose_tip_x : FloatVal
  nose_tip_y : FloatVal
  nose_tip_l : FloatVal
  nose_right_x : FloatVal
  nose_right_y : FloatVal
  nose_right_l : FloatVal
  nose_bottom_x : FloatVal
  nose_bottom_y : FloatVal
  nose_bottom_l : FloatVal
  nose_left_x : FloatVal
  nose_left_y : FloatVal
  nose_left_l : FloatVal
deriving DecidableEq

/-- The per-segment mean of one column, e.g.
`segment_data["nose_tip_x"].mean()`. -/
def segmentFieldMean (seg : List Frame) (field : Frame → FloatVal) : FloatVal :=
  seriesMean (seg.map field)

/-- A classifier argument built from an aggregated mean: the pipeline only
ever hands the classifier numbers or NaN (never a `float()`-raising value,
because `pd.to_numeric` already coerced the columns). -/
def coordOfFloat : FloatVal → CoordIn
  | .nan => .nan
  | .num q => .num q

/-- The auto label `load_and_process_excel` stores for one segment
(lines 399-450): `"ELSEWHERE"` for an empty segment, otherwise the ray
classification of the per-segment means, with `undefined`/`poor_likelihood`
merged into `"POOR LIKELIHOOD"`. -/
def autoLabel (seg : List Frame) : String :=
  if seg.isEmpty then "ELSEWHERE"
  else
    segmentLabel
      (classify_orientation_by_ray_intersection
        (coordOfFloat (segmentFieldMean seg Frame.nose_bottom_x))
        (coordOfFloat (segmentFieldMean seg Frame.nose_bottom_y))
        (coordOfFloat (segmentFieldMean seg Frame.nose_tip_x))
        (coordOfFloat (segmentFieldMean seg Frame.nose_tip_y))
        (some (segmentFieldMean seg Frame.nose_bottom_l))
        (some (segmentFieldMean seg Frame.nose_tip_l))).2.2

/-- `start_idx = int(seg_idx * frames_per_segment)` with
`frames_per_segment = len(df) / total_segments` (real division, then
truncation; all quantities are nonnegative, so truncation is the floor). -/
def segStart (numFrames totalSegs i : ℕ) : ℕ :=
  (⌊(i : ℚ) * ((numFrames : ℚ) / (totalSegs : ℚ))⌋).toNat

/-- `end_idx = int((seg_idx + 1) * frames_per_segment)`. -/
def segEnd (numFrames totalSegs i : ℕ) : ℕ :=
  (⌊((i : ℚ) + 1) * ((numFrames : ℚ) / (totalSegs : ℚ))⌋).toNat

/-- `self.total_segments = max(1, int(self.video_duration / self.frame_interval))`
(manual_labeling_ui.py line 388).  `none` models the `ZeroDivisionError`
Python raises for `frame_interval = 0`; there is no validation of the
interval's sign anywhere before this line. -/
def total_segments_calc (video_duration frame_interval : ℚ) : Option ℤ :=
  if frame_interval = 0 then none
  else some (max 1 (pytrunc (video_duration / frame_interval)))

/-! Ratio-threshold classifier (head_orientation_ui.py lines 203-253;
the same metric formulas appear in label_head_orientation.py lines 45-89). -/

/-- One row with the fields the ratio-threshold procedure reads.  The claims
about this procedure quantify over numeric frames, so the fields are plain
rationals here. -/
structure RowQ where
  nose_tip_x : ℚ
  nose_tip_y : ℚ
  nose_tip_l : ℚ
  nose_right_x : ℚ
  nose_right_y : ℚ
  nose_right_l : ℚ
  nose_bottom_x : ℚ
  nose_bottom_y : ℚ
  nose_bottom_l : ℚ
  nose_left_x : ℚ
  nose_left_y : ℚ
  nose_left_l : ℚ
deriving DecidableEq

/-- `df["nose_midpoint_x"] = (df["nose_right_x"] + df["nose_left_x"]) / 2`. -/
def nose_midpoint_x (r : RowQ) : ℚ := (r.nose_right_x + r.nose_left_x) / 2

/-- `df["nose_width"] = df["nose_right_x"] - df["nose_left_x"]`. -/
def nose_width (r : RowQ) : ℚ := r.nose_right_x - r.nose_left_x

/-- `df["tip_offset"] = df["nose_tip_x"] - df["nose_midpoint_x"]`. -/
def tip_offset (r : RowQ) : ℚ := r.nose_tip_x - nose_midpoint_x r

/-- `np.where(np.abs(nose_width) > 5, tip_offset / nose_width, 0)` — the
column named `tip_offset_ratio` in the source. -/
def tip_offset_frac (r : RowQ) : ℚ :=
  if 5 < |nose_width r| then tip_offset r / nose_width r else 0

/-- `df["avg_likelihood"]`: the mean of the four landmark likelihoods. -/
def avg_likelihood (r : RowQ) : ℚ :=
  (r.nose_tip_l + r.nose_right_l + r.nose_left_l + r.nose_bottom_l) / 4

/-- The per-frame `classify(row)` of head_orientation_ui.py (lines 237-252). -/
def classifyRT (r : RowQ) (likelihood_threshold straight_threshold : ℚ) : Orient :=
  if avg_likelihood r < likelihood_threshold then .elsewhere
  else if nose_width r < 5 ∨ 200 < nose_width r then .elsewhere
  else if |tip_offset_frac r| ≤ straight_threshold then .straight
  else if tip_offset_frac r < -straight_threshold then .left
  else if straight_threshold < tip_offset_frac r then .right
  else .straight

/-! Tilt-angle calculator (manual_labeling_ui.py lines 458-485).
`math.atan` forces the angle into `ℝ`; the branching data (`dx`, `dy`,
the margin) stays rational. -/

/-- `math.degrees`. -/
noncomputable def degreesR (x : ℝ) : ℝ := x * 180 / Real.pi

/-- Python's integer `round` (half-to-even) on a real argument. -/
noncomputable def rheR (x : ℝ) : ℤ :=
  if x - ⌊x⌋ < 1/2 then ⌊x⌋
  else if 1/2 < x - ⌊x⌋ then ⌊x⌋ + 1
  else if Even ⌊x⌋ then ⌊x⌋ else ⌊x⌋ + 1

/-- Python's `round(x, 1)` on a real argument. -/
noncomputable def pyround1R (x : ℝ) : ℝ := (rheR (10 * x) : ℝ) / 10

/-- `calculate_head_tilt_angle(tip_x, tip_y, bottom_x, bottom_y, margin=2.0)`:
returns `(angle_degrees, is_straight)`. -/
noncomputable def calculate_head_tilt_angle
    (tip_x tip_y bottom_x bottom_y : ℚ) (margin : ℚ := 2) : ℝ × Bool :=
  let dx := tip_x - bottom_x
  let dy := bottom_y - tip_y
  if |dx| ≤ margin then ((0 : ℝ), true)
  else if dy ≠ 0 then
    (pyround1R (degreesR (Real.arctan ((dx : ℝ) / (dy : ℝ)))), false)
  else ((if 0 < dx then (90 : ℝ) else (-90 : ℝ)), false)

/-! Concrete inputs used to exercise the pipeline. -/

/-- A frame whose twelve cells were all non-numeric, hence all NaN after
coercion. -/
def frameAllNan : Frame :=
  ⟨.nan, .nan, .nan, .nan, .nan, .nan, .nan, .nan, .nan, .nan, .nan, .nan⟩

/-- A frame whose tip-x cell holds 4 and whose other cells are NaN. -/
def frameTip4 : Frame :=
  { frameAllNan with nose_tip_x := .num 4 }

/-- A fully numeric frame with coincident tip and bottom landmarks
(zero-length direction vector) and likelihoods 0.9. -/
def frameDegenerate : Frame :=
  ⟨.num 400, .num 500, .num (9/10), .num 300, .num 450, .num (9/10),
   .num 400, .num 500, .num (9/10), .num 500, .num 450, .num (9/10)⟩

/-- A numeric row for the ratio-threshold procedure: nose width 20,
tip far to the left of the midpoint, likelihoods 0.9. -/
def exRowC6 : RowQ :=
  ⟨10, 0, 9/10, 110, 0, 9/10, 50, 0, 9/10, 90, 0, 9/10⟩

/-! ### Helper lemmas -/

theorem numVals_filter (l : List FloatVal) :
    numVals (l.filter FloatVal.isNum) = numVals l := by
  induction l with
  | nil => rfl
  | cons hd tl ih =>
    cases hd with
    | nan => simpa [numVals, FloatVal.isNum] using ih
    | num q => simpa [numVals, FloatVal.isNum] using ih

theorem seriesMean_filter (l : List FloatVal) :
    seriesMean (l.filter FloatVal.isNum) = seriesMean l := by
  unfold seriesMean
  rw [numVals_filter]

theorem seriesMean_eq_nan_iff (l : List FloatVal) :
    seriesMean l = FloatVal.nan ↔ numVals l = [] := by
  unfold seriesMean
  cases h : numVals l with
  | nil => simp
  | cons a as => simp

theorem zoneOf_ne_poor (x : ℚ) : zoneOf x ≠ Orient.poor := by
  unfold zoneOf
  split_ifs <;> simp

theorem zoneOf_ne_undefined (x : ℚ) : zoneOf x ≠ Orient.undefined := by
  unfold zoneOf
  split_ifs <;> simp

theorem rayGeom_ne_poor (bottom_x bottom_y tip_x tip_y : ℚ) :
    (rayGeom bottom_x bottom_y tip_x tip_y).2.2 ≠ Orient.poor := by
  unfold rayGeom
  cases h : selectMin (rayCandidates bottom_x bottom_y tip_x tip_y) with
  | none => simp
  | some m =>
    obtain ⟨t, xb, yb⟩ := m
    simpa using zoneOf_ne_poor (pyround1Q xb)

theorem pytrunc_nonpos {q : ℚ} (h : q ≤ 0) : pytrunc q ≤ 0 := by
  unfold pytrunc
  split_ifs with h0
  · exact Int.floor_nonpos h
  · exact Int.ceil_le.mpr (by exact_mod_cast h)

theorem segStart_eq_div (numFrames totalSegs i : ℕ) :
    segStart numFrames totalSegs i = i * numFrames / totalSegs := by
  unfold segStart
  have hq : (i : ℚ) * ((numFrames : ℚ) / (totalSegs : ℚ))
      = ((i * numFrames : ℕ) : ℤ) / ((totalSegs : ℕ) : ℚ) := by
    push_cast
    ring
  rw [hq, Rat.floor_intCast_div_natCast]
  rw [show ((i * numFrames : ℕ) : ℤ) / ((totalSegs : ℕ) : ℤ)
      = ((i * numFrames / totalSegs : ℕ) : ℤ) from (Int.natCast_div _ _).symm]
  exact Int.toNat_natCast _

theorem segEnd_eq_div (numFrames totalSegs i : ℕ) :
    segEnd numFrames totalSegs i = (i + 1) * numFrames / totalSegs := by
  have h : segEnd numFrames totalSegs i = segStart numFrames totalSegs (i + 1) := by
    unfold segEnd segStart
    push_cast
    ring_nf
  rw [h, segStart_eq_div]

theorem rheR_intCast (n : ℤ) : rheR (n : ℝ) = n := by
  unfold rheR
  rw [Int.floor_intCast]
  norm_num

theorem rheR_eq_of_bounds (x : ℝ) (n : ℤ)
    (h1 : (n : ℝ) - 1/2 < x) (h2 : x < (n : ℝ) + 1/2) : rheR x = n := by
  unfold rheR
  rcases le_or_lt (n : ℝ) x with hc | hc
  · have hf : ⌊x⌋ = n := by
      rw [Int.floor_eq_iff]
      exact ⟨hc, by linarith⟩
    rw [hf, if_pos (by linarith)]
  · have hf : ⌊x⌋ = n - 1 := by
      rw [Int.floor_eq_iff]
      refine ⟨by push_cast; linarith, by push_cast; linarith⟩
    rw [hf, if_neg (by push_cast; linarith), if_pos (by push_cast; linarith)]
    omega

theorem rheR_neg (x : ℝ) : rheR (-x) = -(rheR x) := by
  rcases eq_or_lt_of_le (Int.floor_le x) with hfl | hfl
  · -- x is an integer
    rw [show x = ((⌊x⌋ : ℤ) : ℝ) from hfl.symm ▸ rfl]
    rw [show -((⌊x⌋ : ℤ) : ℝ) = ((-⌊x⌋ : ℤ) : ℝ) by push_cast; ring]
    rw [rheR_intCast, rheR_intCast]
  · -- x is not an integer, so ⌊-x⌋ = -⌊x⌋ - 1
    have hub := Int.lt_floor_add_one x
    set n := ⌊x⌋ with hn
    have hnegfl : ⌊-x⌋ = -n - 1 := by
      rw [Int.floor_eq_iff]
      constructor
      · push_cast
        linarith
      · push_cast
        linarith
    unfold rheR
    rw [hnegfl, ← hn]
    have hfr : -x - ((-n - 1 : ℤ) : ℝ) = 1 - (x - n) := by push_cast; ring
    rw [hfr]
    have hevNeg : Even (-n - 1) ↔ ¬ Even n := by
      rw [show -n - 1 = -(n + 1) by ring, even_neg, Int.even_add_one]
    rcases lt_trichotomy (x - (n : ℝ)) (1/2) with hh | hh | hh
    · rw [if_neg (show ¬ (1 - (x - (n : ℝ)) < 1/2) by linarith),
        if_pos (show (1:ℝ)/2 < 1 - (x - (n : ℝ)) by linarith),
        if_pos (show x - (n : ℝ) < 1/2 from hh)]
      omega
    · rw [if_neg (show ¬ (1 - (x - (n : ℝ)) < 1/2) by rw [hh]; norm_num),
        if_neg (show ¬ ((1:ℝ)/2 < 1 - (x - (n : ℝ))) by rw [hh]; norm_num),
        if_neg (show ¬ (x - (n : ℝ) < 1/2) by rw [hh]; norm_num),
        if_neg (show ¬ ((1:ℝ)/2 < x - (n : ℝ)) by rw [hh]; norm_num)]
      by_cases he : Even n
      · rw [if_neg (fun hc => (hevNeg.mp hc) he), if_pos he]
        omega
      · rw [if_pos (hevNeg.mpr he), if_neg he]
        omega
    · rw [if_pos (show 1 - (x - (n : ℝ)) < 1/2 by linarith),
        if_neg (show ¬ (x - (n : ℝ) < 1/2) by linarith),
        if_pos (show (1:ℝ)/2 < x - (n : ℝ) from hh)]
      omega

theorem pyround1R_neg (x : ℝ) : pyround1R (-x) = -(pyround1R x) := by
  unfold pyround1R
  rw [show (10 : ℝ) * -x = -(10 * x) by ring, rheR_neg]
  push_cast
  ring

theorem degreesR_neg (x : ℝ) : degreesR (-x) = -(degreesR x) := by
  unfold degreesR
  ring

theorem arctan_eighth_lt : Real.arctan (1/8) < 1247/10000 := by
  have hb_abs : |(1247/10000 : ℝ)| ≤ 1 := by
    rw [abs_of_nonneg (by norm_num)]
    norm_num
  have hs := Real.sin_bound hb_abs
  have hc := Real.cos_bound hb_abs
  rw [abs_of_nonneg (show (0:ℝ) ≤ 1247/10000 by norm_num)] at hs hc
  obtain ⟨hs1, hs2⟩ := abs_le.mp hs
  obtain ⟨hc1, hc2⟩ := abs_le.mp hc
  have hcos_pos : 0 < Real.cos (1247/10000) := by nlinarith
  have htan : (1/8 : ℝ) < Real.tan (1247/10000) := by
    rw [Real.tan_eq_sin_div_cos, lt_div_iff₀ hcos_pos]
    nlinarith
  have hpi := Real.pi_gt_d6
  have harct := Real.arctan_strictMono htan
  rwa [Real.arctan_tan (by linarith) (by linarith)] at harct

theorem lt_arctan_eighth : (1231/10000 : ℝ) < Real.arctan (1/8) := by
  have hb_abs : |(1231/10000 : ℝ)| ≤ 1 := by
    rw [abs_of_nonneg (by norm_num)]
    norm_num
  have hs := Real.sin_bound hb_abs
  have hc := Real.cos_bound hb_abs
  rw [abs_of_nonneg (show (0:ℝ) ≤ 1231/10000 by norm_num)] at hs hc
  obtain ⟨hs1, hs2⟩ := abs_le.mp hs
  obtain ⟨hc1, hc2⟩ := abs_le.mp hc
  have hcos_pos : 0 < Real.cos (1231/10000) := by nlinarith
  have htan : Real.tan (1231/10000) < 1/8 := by
    rw [Real.tan_eq_sin_div_cos, div_lt_iff₀ hcos_pos]
    nlinarith
  have hpi := Real.pi_gt_d6
  have harct := Real.arctan_strictMono htan
  rwa [Real.arctan_tan (by linarith) (by linarith)] at harct

/-! ### Claim theorems -/

/-- C1, counterexample: the claim fails for NaN coordinates.  With a NaN
bottom-x and both confidences 0.4 (< 0.6), the classifier returns
`undefined`, not `poor_likelihood`: the NaN coordinate check runs before the
likelihood priority check. -/
theorem C1_counterexample :
    classify_orientation_by_ray_intersection CoordIn.nan (CoordIn.num 0)
      (CoordIn.num 0) (CoordIn.num 0)
      (some (FloatVal.num (2/5))) (some (FloatVal.num (2/5)))
      = (none, none, Orient.undefined)
    ∧ Orient.undefined ≠ Orient.poor :=
  ⟨rfl, by simp⟩

/-- C1, amended: for numeric (non-NaN, non-raising) coordinate inputs, if the
supplied bottom confidence is < 0.6 or the supplied tip confidence is < 0.6
(NaN confidences compare false), the classifier returns `poor_likelihood`
regardless of the geometry.  For NaN or non-numeric coordinates the
coordinate checks run first and return `undefined` instead. -/
theorem C1_amended_priority_rule (bottom_x bottom_y tip_x tip_y : ℚ)
    (bottom_likelihood tip_likelihood : Option FloatVal)
    (h : likBelow bottom_likelihood = true ∨ likBelow tip_likelihood = true) :
    classify_orientation_by_ray_intersection
      (CoordIn.num bottom_x) (CoordIn.num bottom_y)
      (CoordIn.num tip_x) (CoordIn.num tip_y)
      bottom_likelihood tip_likelihood
      = (none, none, Orient.poor) := by
  rcases h with h | h
  · simp [classify_orientation_by_ray_intersection, coerceCoord, h]
  · by_cases hb : likBelow bottom_likelihood <;>
      simp [classify_orientation_by_ray_intersection, coerceCoord, h, hb]

/-- C1, witness: confidence 0.4 < 0.6 on the bottom landmark forces
`poor_likelihood` for the Scenario-2 geometry. -/
theorem C1_witness :
    (likBelow (some (FloatVal.num (2/5))) = true
      ∨ likBelow (some (FloatVal.num (9/10))) = true)
    ∧ classify_orientation_by_ray_intersection (CoordIn.num 400) (CoordIn.num 500)
        (CoordIn.num 450) (CoordIn.num 100)
        (some (FloatVal.num (2/5))) (some (FloatVal.num (9/10)))
        = (none, none, Orient.poor) := by
  have h : likBelow (some (FloatVal.num (2/5))) = true := by
    norm_num [likBelow, FloatVal.ltNum]
  exact ⟨Or.inl h, C1_amended_priority_rule 400 500 450 100 _ _ (Or.inl h)⟩

/-- C2, counterexample: a two-frame segment whose tip-x column holds NaN and
4 has mean 4, not NaN — `pandas.Series.mean()` skips NaN by default, so
NaN-bearing frames do not propagate into the mean. -/
theorem C2_counterexample :
    segmentFieldMean [frameAllNan, frameTip4] Frame.nose_tip_x = FloatVal.num 4
    ∧ FloatVal.num 4 ≠ FloatVal.nan := by
  constructor
  · show seriesMean [FloatVal.nan, FloatVal.num 4] = FloatVal.num 4
    norm_num [seriesMean, numVals]
  · simp

/-- C2, amended: each per-segment per-field mean ignores NaN entries — it is
unchanged when the NaN-bearing frames are dropped — and it is NaN exactly
when the segment has no non-NaN value in that field. -/
theorem C2_amended_mean_skips_nan (seg : List Frame) (field : Frame → FloatVal) :
    segmentFieldMean seg field
      = segmentFieldMean (seg.filter fun fr => (field fr).isNum) field
    ∧ (segmentFieldMean seg field = FloatVal.nan ↔ numVals (seg.map field) = []) := by
  constructor
  · unfold segmentFieldMean
    rw [← seriesMean_filter (seg.map field)]
    congr 1
    induction seg with
    | nil => rfl
    | cons hd tl ih =>
      by_cases h : (field hd).isNum <;> simp [h, ih]
  · exact seriesMean_eq_nan_iff _

/-- C3: for every border x-coordinate in `[0, 920)` the zone step yields
LEFT iff `125 < x < 325`, STRAIGHT iff `325 < x < 600`, RIGHT iff
`600 < x < 800`, ELSEWHERE exactly otherwise (so exactly one of the four),
and each boundary value 125/325/600/800 resolves to ELSEWHERE. -/
theorem C3_zone_partition (x : ℚ) (h0 : 0 ≤ x) (h920 : x < 920) :
    (zoneOf x = Orient.left ↔ 125 < x ∧ x < 325)
    ∧ (zoneOf x = Orient.straight ↔ 325 < x ∧ x < 600)
    ∧ (zoneOf x = Orient.right ↔ 600 < x ∧ x < 800)
    ∧ (zoneOf x = Orient.elsewhere ↔
        ¬((125 < x ∧ x < 325) ∨ (325 < x ∧ x < 600) ∨ (600 < x ∧ x < 800)))
    ∧ zoneOf (125 : ℚ) = Orient.elsewhere
    ∧ zoneOf (325 : ℚ) = Orient.elsewhere
    ∧ zoneOf (600 : ℚ) = Orient.elsewhere
    ∧ zoneOf (800 : ℚ) = Orient.elsewhere := by
  refine ⟨?_, ?_, ?_, ?_, by norm_num [zoneOf], by norm_num [zoneOf],
    by norm_num [zoneOf], by norm_num [zoneOf]⟩ <;>
  · unfold zoneOf
    split_ifs with h1 h2 h3 <;> simp_all <;> intros <;> casesm* _ ∧ _ <;> linarith

/-- C3, witness: x = 500 lies in `[0, 920)` and classifies STRAIGHT,
matching `325 < 500 < 600`. -/
theorem C3_witness :
    (0 : ℚ) ≤ 500 ∧ (500 : ℚ) < 920
    ∧ (zoneOf (500 : ℚ) = Orient.straight ↔ 325 < (500 : ℚ) ∧ (500 : ℚ) < 600) :=
  ⟨by norm_num, by norm_num, (C3_zone_partition 500 (by norm_num) (by norm_num)).2.1⟩

/-- C4: for every frame count and every segment count `S ≥ 1`, consecutive
segments share their endpoint (`end i = start (i+1)`), and each frame index
`j < N` lies in exactly one segment range — the ranges partition `[0, N)`
with no gap and no overlap. -/
theorem C4_segment_partition (numFrames totalSegs : ℕ) (hS : 1 ≤ totalSegs) :
    (∀ i, segEnd numFrames totalSegs i = segStart numFrames totalSegs (i + 1))
    ∧ ∀ j, j < numFrames ↔
        ∃! i, i < totalSegs ∧ segStart numFrames totalSegs i ≤ j
          ∧ j < segEnd numFrames totalSegs i := by
  have hS0 : 0 < totalSegs := hS
  constructor
  · intro i
    unfold segEnd segStart
    push_cast
    ring_nf
  intro j
  constructor
  · intro hj
    have hN : 0 < numFrames := Nat.lt_of_le_of_lt (Nat.zero_le j) hj
    have key : ∀ i, (segStart numFrames totalSegs i ≤ j ∧ j < segEnd numFrames totalSegs i)
        ↔ (i * numFrames < (j + 1) * totalSegs ∧ (j + 1) * totalSegs ≤ (i + 1) * numFrames) := by
      intro i
      rw [segStart_eq_div, segEnd_eq_div]
      constructor
      · rintro ⟨h1, h2⟩
        refine ⟨?_, (Nat.le_div_iff_mul_le hS0).mp h2⟩
        by_contra hcon
        push_neg at hcon
        have h5 : j + 1 ≤ i * numFrames / totalSegs :=
          (Nat.le_div_iff_mul_le hS0).mpr hcon
        omega
      · rintro ⟨h1, h2⟩
        refine ⟨?_, (Nat.le_div_iff_mul_le hS0).mpr h2⟩
        by_contra hcon
        push_neg at hcon
        have h5 : (j + 1) * totalSegs ≤ i * numFrames :=
          (Nat.le_div_iff_mul_le hS0).mp hcon
        omega
    set M := (j + 1) * totalSegs with hM
    have hM1 : 1 ≤ M := Nat.one_le_iff_ne_zero.mpr (by positivity)
    refine ⟨(M - 1) / numFrames, ⟨?_, ?_⟩, ?_⟩
    · have hMle : M ≤ numFrames * totalSegs := by
        have hj1 : j + 1 ≤ numFrames := hj
        calc M = (j + 1) * totalSegs := hM
        _ ≤ numFrames * totalSegs := Nat.mul_le_mul_right _ hj1
      rw [Nat.div_lt_iff_lt_mul hN]
      calc M - 1 < M := by omega
      _ ≤ numFrames * totalSegs := hMle
      _ = totalSegs * numFrames := Nat.mul_comm _ _
    · rw [key]
      constructor
      · have := Nat.div_mul_le_self (M - 1) numFrames
        omega
      · have e2 : M - 1 < ((M - 1) / numFrames + 1) * numFrames :=
          (Nat.div_lt_iff_lt_mul hN).mp (by omega)
        omega
    · rintro i ⟨hiS, hmem⟩
      rw [key] at hmem
      obtain ⟨h1, h2⟩ := hmem
      have e1 := Nat.div_mul_le_self (M - 1) numFrames
      have e2 : M - 1 < ((M - 1) / numFrames + 1) * numFrames :=
        (Nat.div_lt_iff_lt_mul hN).mp (by omega)
      set k := (M - 1) / numFrames with hk
      rcases Nat.lt_trichotomy i k with hik | hik | hik
      · exfalso
        have hmul : (i + 1) * numFrames ≤ k * numFrames := Nat.mul_le_mul_right _ hik
        omega
      · exact hik
      · exfalso
        have hmul : (k + 1) * numFrames ≤ i * numFrames := Nat.mul_le_mul_right _ hik
        omega
  · rintro ⟨i, ⟨hiS, h1, h2⟩, _⟩
    have hend : segEnd numFrames totalSegs i ≤ numFrames := by
      rw [segEnd_eq_div]
      have hle : (i + 1) * numFrames ≤ totalSegs * numFrames := Nat.mul_le_mul_right _ hiS
      calc (i + 1) * numFrames / totalSegs ≤ totalSegs * numFrames / totalSegs :=
            Nat.div_le_div_right hle
      _ = numFrames := Nat.mul_div_cancel_left _ hS0
    omega

/-- C4, witness: with 10 frames and 3 segments, frame index 5 belongs to
exactly one segment. -/
theorem C4_witness :
    1 ≤ 3
    ∧ ((5 < 10) ↔ ∃! i, i < 3 ∧ segStart 10 3 i ≤ 5 ∧ 5 < segEnd 10 3 i) :=
  ⟨by norm_num, (C4_segment_partition 10 3 (by norm_num)).2 5⟩

/-- C5, counterexample: for a fully numeric one-frame segment with
coincident tip and bottom (zero-length direction vector) and confidences
0.9, the classifier returns `undefined` but the stored segment label is
"POOR LIKELIHOOD", not "UNDEFINED" — the pipeline merges `undefined` with
`poor_likelihood` before storing. -/
theorem C5_counterexample :
    autoLabel [frameDegenerate] = "POOR LIKELIHOOD"
    ∧ ("POOR LIKELIHOOD" : String) ≠ "UNDEFINED" := by
  constructor
  · norm_num [autoLabel, frameDegenerate, segmentFieldMean, seriesMean, numVals,
      coordOfFloat, classify_orientation_by_ray_intersection, coerceCoord,
      likBelow, FloatVal.ltNum, rayGeom, rayCandidates, vertHit, horizHit,
      selectMin, segmentLabel]
  · decide

/-- C5, amended: when a coordinate is NaN/non-numeric, or the coordinates are
numeric with passing confidences but no valid forward border intersection
exists, the classifier itself returns `undefined` — a value distinct from
`poor_likelihood` — but the per-segment label maps `undefined` and
`poor_likelihood` to the same stored string "POOR LIKELIHOOD". -/
theorem C5_amended_undefined_geometry
    (bottom_x bottom_y tip_x tip_y : CoordIn) (bl tl : Option FloatVal)
    (h : (¬ ∃ bx bv tx tv : ℚ, bottom_x = CoordIn.num bx ∧ bottom_y = CoordIn.num bv
            ∧ tip_x = CoordIn.num tx ∧ tip_y = CoordIn.num tv)
       ∨ (∃ bx bv tx tv : ℚ, bottom_x = CoordIn.num bx ∧ bottom_y = CoordIn.num bv
            ∧ tip_x = CoordIn.num tx ∧ tip_y = CoordIn.num tv
            ∧ likBelow bl = false ∧ likBelow tl = false
            ∧ rayCandidates bx bv tx tv = [])) :
    classify_orientation_by_ray_intersection bottom_x bottom_y tip_x tip_y bl tl
      = (none, none, Orient.undefined)
    ∧ Orient.undefined ≠ Orient.poor
    ∧ segmentLabel Orient.undefined = segmentLabel Orient.poor := by
  refine ⟨?_, by simp, rfl⟩
  rcases h with h | ⟨bx, bv, tx, tv, rfl, rfl, rfl, rfl, hb, ht, hc⟩
  · cases bottom_x <;> cases bottom_y <;> cases tip_x <;> cases tip_y <;>
      first
        | rfl
        | exact absurd ⟨_, _, _, _, rfl, rfl, rfl, rfl⟩ h
  · simp only [classify_orientation_by_ray_intersection, coerceCoord, hb, ht]
    simp [rayGeom, hc, selectMin]

/-- C5, witness: a NaN bottom-x with no likelihoods yields `undefined`. -/
theorem C5_witness :
    (¬ ∃ bx bv tx tv : ℚ, CoordIn.nan = CoordIn.num bx ∧ CoordIn.num 0 = CoordIn.num bv
        ∧ CoordIn.num 0 = CoordIn.num tx ∧ CoordIn.num 0 = CoordIn.num tv)
    ∧ classify_orientation_by_ray_intersection CoordIn.nan (CoordIn.num 0)
        (CoordIn.num 0) (CoordIn.num 0) none none
      = (none, none, Orient.undefined) := by
  have hn : ¬ ∃ bx bv tx tv : ℚ, CoordIn.nan = CoordIn.num bx
      ∧ CoordIn.num 0 = CoordIn.num bv ∧ CoordIn.num 0 = CoordIn.num tx
      ∧ CoordIn.num 0 = CoordIn.num tv := by simp
  exact ⟨hn, (C5_amended_undefined_geometry _ _ _ _ _ _ (Or.inl hn)).1⟩

/-- C6: in ratio-threshold mode, with a nonnegative straight threshold, the
frame label is ELSEWHERE iff the average likelihood is below the likelihood
threshold or the nose width is outside `[5, 200]`; otherwise it is STRAIGHT
iff `|tip_offset_ratio| ≤ threshold`, LEFT iff `ratio < -threshold`, and
RIGHT iff `ratio > threshold`. -/
theorem C6_ratio_threshold_mode (r : RowQ) (likelihood_threshold straight_threshold : ℚ)
    (hth : 0 ≤ straight_threshold) :
    (classifyRT r likelihood_threshold straight_threshold = Orient.elsewhere ↔
        avg_likelihood r < likelihood_threshold
          ∨ nose_width r < 5 ∨ 200 < nose_width r)
    ∧ (classifyRT r likelihood_threshold straight_threshold = Orient.straight ↔
        ¬(avg_likelihood r < likelihood_threshold
            ∨ nose_width r < 5 ∨ 200 < nose_width r)
        ∧ |tip_offset_frac r| ≤ straight_threshold)
    ∧ (classifyRT r likelihood_threshold straight_threshold = Orient.left ↔
        ¬(avg_likelihood r < likelihood_threshold
            ∨ nose_width r < 5 ∨ 200 < nose_width r)
        ∧ tip_offset_frac r < -straight_threshold)
    ∧ (classifyRT r likelihood_threshold straight_threshold = Orient.right ↔
        ¬(avg_likelihood r < likelihood_threshold
            ∨ nose_width r < 5 ∨ 200 < nose_width r)
        ∧ straight_threshold < tip_offset_frac r) := by
  refine ⟨?_, ?_, ?_, ?_⟩ <;>
  · unfold classifyRT
    split_ifs with h1 h2 h3 h4 h5 <;>
      simp_all <;> intros <;> casesm* _ ∧ _ <;>
      rcases abs_cases (tip_offset_frac r) with ⟨he, hs⟩ | ⟨he, hs⟩ <;>
      simp only [he] at * <;> linarith

/-- C6, witness: a confident row with nose width 20 and tip offset ratio
−4.5 classifies LEFT at the default thresholds 0.3 and 0.12. -/
theorem C6_witness :
    (0 : ℚ) ≤ 12/100
    ∧ (classifyRT exRowC6 (3/10) (12/100) = Orient.left ↔
        ¬(avg_likelihood exRowC6 < 3/10
            ∨ nose_width exRowC6 < 5 ∨ 200 < nose_width exRowC6)
        ∧ tip_offset_frac exRowC6 < -(12/100)) :=
  ⟨by norm_num, (C6_ratio_threshold_mode exRowC6 (3/10) (12/100) (by norm_num)).2.2.1⟩

/-- C7: for bottom (400, 500), tip (450, 100), confidences 0.9/0.9: the tilt
calculator returns exactly (7.1°, is_straight = false); the smallest-t border
intersection is on the top border (y = 0) at x = 462.5 with t = 1.25; the
classifier returns border point (462.5, 0) with orientation `straight`; and
the stored label is "STRAIGHT". -/
theorem C7_scenario2 :
    calculate_head_tilt_angle 450 100 400 500 = (71/10, false)
    ∧ selectMin (rayCandidates 400 500 450 100) = some (5/4, 925/2, 0)
    ∧ classify_orientation_by_ray_intersection (CoordIn.num 400) (CoordIn.num 500)
        (CoordIn.num 450) (CoordIn.num 100)
        (some (FloatVal.num (9/10))) (some (FloatVal.num (9/10)))
      = (some (925/2), some 0, Orient.straight)
    ∧ segmentLabel Orient.straight = "STRAIGHT" := by
  refine ⟨?_, ?_, ?_, rfl⟩
  · unfold calculate_head_tilt_angle
    rw [if_neg (show ¬ (|(450 : ℚ) - 400| ≤ 2) by norm_num),
      if_pos (show (500 : ℚ) - 100 ≠ 0 by norm_num)]
    have hcast : (((450 : ℚ) - 400 : ℚ) : ℝ) / (((500 : ℚ) - 100 : ℚ) : ℝ) = 1/8 := by
      norm_num
    rw [hcast]
    have hA_lo := lt_arctan_eighth
    have hA_hi := arctan_eighth_lt
    have hpi_lo := Real.pi_gt_d6
    have hpi_hi := Real.pi_lt_d6
    have hpi_pos := Real.pi_pos
    have hD_lo : (705/100 : ℝ) < degreesR (Real.arctan (1/8)) := by
      unfold degreesR
      rw [lt_div_iff₀ hpi_pos]
      nlinarith
    have hD_hi : degreesR (Real.arctan (1/8)) < (715/100 : ℝ) := by
      unfold degreesR
      rw [div_lt_iff₀ hpi_pos]
      nlinarith
    have hround : rheR (10 * degreesR (Real.arctan (1/8))) = 71 := by
      apply rheR_eq_of_bounds
      · push_cast
        linarith
      · push_cast
        linarith
    unfold pyround1R
    rw [hround]
    norm_num
  · norm_num [rayCandidates, vertHit, horizHit, imgW, imgH, selectMin]
  · norm_num [classify_orientation_by_ray_intersection, coerceCoord, likBelow,
      FloatVal.ltNum, rayGeom, rayCandidates, vertHit, horizHit, imgW, imgH,
      selectMin, pyround1Q, rheQ, zoneOf]

/-- C8, counterexample: with duration 10 and interval −1 (non-positive), the
segment-count computation yields `max(1, int(10 / -1)) = 1` and the pipeline
proceeds — no error of any kind is raised at pipeline entry. -/
theorem C8_counterexample :
    total_segments_calc 10 (-1) = some 1 ∧ total_segments_calc 10 (-1) ≠ none := by
  have hceil : ⌈((-10) : ℚ)⌉ = (-10 : ℤ) := by
    rw [show ((-10) : ℚ) = ((-10 : ℤ) : ℚ) by norm_num]
    exact Int.ceil_intCast _
  refine ⟨?_, by simp [total_segments_calc]⟩
  norm_num [total_segments_calc, pytrunc, hceil]

/-- C8, amended: there is no fail-fast validation.  A zero interval raises
`ZeroDivisionError` from the division itself (not a descriptive entry
error); a negative interval silently yields one segment covering everything
and the pipeline proceeds; a zero frame count also proceeds, with every
segment's index range empty. -/
theorem C8_amended_no_fail_fast (video_duration frame_interval : ℚ)
    (hd : 0 ≤ video_duration) (hi : frame_interval < 0) :
    total_segments_calc video_duration 0 = none
    ∧ total_segments_calc video_duration frame_interval = some 1
    ∧ ∀ totalSegs i : ℕ, segStart 0 totalSegs i = 0 ∧ segEnd 0 totalSegs i = 0 := by
  refine ⟨by simp [total_segments_calc], ?_, ?_⟩
  · have hne : frame_interval ≠ 0 := ne_of_lt hi
    have hq : video_duration / frame_interval ≤ 0 := by
      rw [div_nonpos_iff]
      left
      exact ⟨hd, hi.le⟩
    have ht := pytrunc_nonpos hq
    simp only [total_segments_calc, hne, if_false]
    congr 1
    omega
  · intro totalSegs i
    constructor <;> simp [segStart, segEnd]

/-- C8, witness: duration 10 and interval −1 produce one segment, no error. -/
theorem C8_witness :
    (0 : ℚ) ≤ 10 ∧ (-1 : ℚ) < 0
    ∧ total_segments_calc 10 (-1) = some 1 :=
  ⟨by norm_num, by norm_num, (C8_amended_no_fail_fast 10 (-1) (by norm_num) (by norm_num)).2.1⟩

/-- C9: for `|dx| > margin = 2`, mirroring the input horizontally (negating
both x-coordinates, which negates dx and keeps dy) returns the angle of
equal magnitude and opposite sign, with `is_straight = false` on both
sides. -/
theorem C9_tilt_mirror_antisymmetry (tip_x tip_y bottom_x bottom_y : ℚ)
    (h : 2 < |tip_x - bottom_x|) :
    (calculate_head_tilt_angle (-tip_x) tip_y (-bottom_x) bottom_y).1
      = -((calculate_head_tilt_angle tip_x tip_y bottom_x bottom_y).1)
    ∧ (calculate_head_tilt_angle (-tip_x) tip_y (-bottom_x) bottom_y).2 = false
    ∧ (calculate_head_tilt_angle tip_x tip_y bottom_x bottom_y).2 = false := by
  have habs : |(-tip_x) - (-bottom_x)| = |tip_x - bottom_x| := by
    rw [show (-tip_x) - (-bottom_x) = -(tip_x - bottom_x) by ring, abs_neg]
  have hm : ¬ (|tip_x - bottom_x| ≤ 2) := not_le.mpr h
  have hm2 : ¬ (|(-tip_x) - (-bottom_x)| ≤ 2) := by rw [habs]; exact hm
  unfold calculate_head_tilt_angle
  simp only [if_neg hm, if_neg hm2]
  by_cases hdy : bottom_y - tip_y ≠ 0
  · simp only [if_pos hdy]
    refine ⟨?_, by simp, by simp⟩
    have hcast : (((-tip_x) - (-bottom_x) : ℚ) : ℝ) / ((bottom_y - tip_y : ℚ) : ℝ)
        = -(((tip_x - bottom_x : ℚ) : ℝ) / ((bottom_y - tip_y : ℚ) : ℝ)) := by
      push_cast
      ring
    rw [hcast, Real.arctan_neg, degreesR_neg, pyround1R_neg]
  · simp only [if_neg hdy]
    have hne : tip_x - bottom_x ≠ 0 := by
      intro hc
      rw [hc] at h
      simp at h
      linarith
    rcases lt_or_gt_of_ne hne with hlt | hgt
    · rw [if_neg (show ¬ (0 < tip_x - bottom_x) by linarith),
        if_pos (show (0:ℚ) < (-tip_x) - (-bottom_x) by linarith)]
      norm_num
    · rw [if_pos (show (0:ℚ) < tip_x - bottom_x from hgt),
        if_neg (show ¬ ((0:ℚ) < (-tip_x) - (-bottom_x)) by linarith)]
      norm_num

/-- C9, witness: tip (60, 0), bottom (10, 0) has dx = 50 > 2; the mirrored
input returns the negated angle. -/
theorem C9_witness :
    2 < |(60 : ℚ) - 10|
    ∧ (calculate_head_tilt_angle (-60) 0 (-10) 0).1
        = -((calculate_head_tilt_angle 60 0 10 0).1) :=
  ⟨by norm_num, (C9_tilt_mirror_antisymmetry 60 0 10 0 (by norm_num)).1⟩

/-- C10, counterexample: with numeric coordinates, tip confidence NaN but
bottom confidence 0.3 (a numeric value < 0.6), the classifier does return
`poor_likelihood` — so "tip or bottom confidence NaN" alone does not prevent
`poor_likelihood`. -/
theorem C10_counterexample :
    classify_orientation_by_ray_intersection (CoordIn.num 400) (CoordIn.num 500)
      (CoordIn.num 450) (CoordIn.num 100)
      (some (FloatVal.num (3/10))) (some FloatVal.nan)
      = (none, none, Orient.poor) := by
  norm_num [classify_orientation_by_ray_intersection, coerceCoord, likBelow, FloatVal.ltNum]

/-- C10, amended: a NaN mean confidence never fires the `< 0.6` check (the
IEEE comparison is false).  Whenever neither supplied confidence fires the
check — each is absent, NaN, or ≥ 0.6 — the classifier behaves exactly as if
no confidences were supplied, classifying by geometry alone, and never
returns `poor_likelihood`. -/
theorem C10_amended_nan_confidence (bottom_x bottom_y tip_x tip_y : ℚ)
    (bl tl : Option FloatVal)
    (hb : likBelow bl = false) (ht : likBelow tl = false) :
    classify_orientation_by_ray_intersection (CoordIn.num bottom_x) (CoordIn.num bottom_y)
        (CoordIn.num tip_x) (CoordIn.num tip_y) bl tl
      = classify_orientation_by_ray_intersection (CoordIn.num bottom_x) (CoordIn.num bottom_y)
        (CoordIn.num tip_x) (CoordIn.num tip_y) none none
    ∧ (classify_orientation_by_ray_intersection (CoordIn.num bottom_x) (CoordIn.num bottom_y)
        (CoordIn.num tip_x) (CoordIn.num tip_y) bl tl).2.2 ≠ Orient.poor := by
  constructor
  · simp only [classify_orientation_by_ray_intersection, coerceCoord, hb, ht]
    simp [likBelow]
  · simp only [classify_orientation_by_ray_intersection, coerceCoord, hb, ht]
    simpa using rayGeom_ne_poor bottom_x bottom_y tip_x tip_y

/-- C10, witness: both mean confidences NaN on the Scenario-2 geometry —
the result is not `poor_likelihood`. -/
theorem C10_witness :
    likBelow (some FloatVal.nan) = false
    ∧ (classify_orientation_by_ray_intersection (CoordIn.num 400) (CoordIn.num 500)
        (CoordIn.num 450) (CoordIn.num 100)
        (some FloatVal.nan) (some FloatVal.nan)).2.2 ≠ Orient.poor :=
  ⟨rfl, (C10_amended_nan_confidence 400 500 450 100
    (some FloatVal.nan) (some FloatVal.nan) rfl rfl).2⟩

end DogHead
